import Mathlib

/-!
Verification of the Costa Rica Climate API gateway (`src/main.py`).

The service is a stateless HTTP façade: a static nine-entry location table,
a coordinate-based weather proxy, a city-based weather proxy that resolves a
slug against the table, and a diagnostic endpoint.  The upstream forecast
provider is modelled as an oracle `Rat → Rat → Except String α`: `.ok body`
is a fetch that returns a JSON body without raising, `.error msg` is a fetch
that raises an exception whose stringified message is `msg`.  The opaque JSON
payload is the type parameter `α`.
-/

namespace CRClimate

/-- A record of the `CR_LOCATIONS` table: `{name, region, lat, lon, slug}`.
Coordinates are embedded as rationals (the Python floats in the table are
short decimal literals, represented exactly). -/
structure Location where
  name : String
  region : String
  lat : Rat
  lon : Rat
  slug : String
deriving DecidableEq, Repr

/-- The static table `CR_LOCATIONS` from `src/main.py`, in source order. -/
def CR_LOCATIONS : List Location :=
  [ ⟨"San José", "San José", 9.9281, -84.0907, "san-jose"⟩
  , ⟨"Alajuela", "Alajuela", 10.0163, -84.2116, "alajuela"⟩
  , ⟨"Heredia", "Heredia", 9.9986, -84.1170, "heredia"⟩
  , ⟨"Cartago", "Cartago", 9.8644, -83.9194, "cartago"⟩
  , ⟨"Puntarenas", "Puntarenas", 9.9763, -84.8384, "puntarenas"⟩
  , ⟨"Limón", "Limón", 9.9907, -83.0360, "limon"⟩
  , ⟨"Liberia (Guanacaste)", "Guanacaste", 10.6340, -85.4377, "liberia"⟩
  , ⟨"Quepos", "Puntarenas", 9.4319, -84.1616, "quepos"⟩
  , ⟨"Puerto Viejo", "Limón", 9.6563, -82.7547, "puerto-viejo"⟩
  ]

/-- Handler for `GET /api/locations`: returns the static table unchanged. -/
def get_locations : List Location := CR_LOCATIONS

/-- Per-character model of Python `str.lower` for the character repertoire
this service handles: ASCII capital letters map to their lowercase forms,
and the two accented capitals whose lowercase forms occur in the table
(`É`, `Ó`) map to `é`, `ó`; every other character is unchanged. -/
def pyLower (c : Char) : Char :=
  if 65 ≤ c.toNat ∧ c.toNat ≤ 90 then Char.ofNat (c.toNat + 32)
  else if c = 'É' then 'é'
  else if c = 'Ó' then 'ó'
  else c

/-- Per-character model of `.replace(" ", "-")` (single-character pattern,
so the replacement acts independently on each character). -/
def dashSpace (c : Char) : Char :=
  if c = ' ' then '-' else c

/-- The slug derivation of `get_weather_by_city`:
`city.lower().replace(" ", "-")`. -/
def slugify (city : String) : String :=
  String.mk ((city.data.map pyLower).map dashSpace)

/-- The table lookup of `get_weather_by_city`:
`next((l for l in CR_LOCATIONS if l["slug"] == city_slug), None)`,
i.e. the first entry whose slug equals the derived slug. -/
def lookup_city (city : String) : Option Location :=
  CR_LOCATIONS.find? (fun l => l.slug = slugify city)

/-- The response envelope of the weather endpoints.
`ok loc d` is `{ok: true, data: d}` with an optional `location` field;
`err msg hint` is `{ok: false, error: msg}` with an optional `hint` field.
Every handler returns an envelope normally, so the HTTP status is always
non-error (the framework serialises a returned dict with status 200). -/
inductive Envelope (α : Type) where
  | ok (location : Option Location) (data : α)
  | err (error : String) (hint : Option String)
deriving DecidableEq, Repr

/-- Handler for `GET /api/weather`: call `fetch_open_meteo(lat, lon)` inside
`try`; on a body, return `{ok: true, data: body}`; on an exception, return
`{ok: false, error: str(e)}`. -/
def get_weather {α : Type} (upstream : Rat → Rat → Except String α)
    (lat lon : Rat) : Envelope α :=
  match upstream lat lon with
  | .ok data => .ok none data
  | .error e => .err e none

/-- Handler for `GET /api/weather/by-city`: derive the slug, look it up;
if absent return the not-found envelope with a hint; if present call
`fetch_open_meteo(loc["lat"], loc["lon"])` inside `try` and return
`{ok: true, location: loc, data: body}` or `{ok: false, error: str(e)}`. -/
def get_weather_by_city {α : Type} (upstream : Rat → Rat → Except String α)
    (city : String) : Envelope α :=
  match lookup_city city with
  | none => .err "City not found" (some "Use /api/locations to see options")
  | some loc =>
    match upstream loc.lat loc.lon with
    | .ok data => .ok (some loc) data
    | .error e => .err e none

/-- Number of upstream fetches `get_weather_by_city` issues for a given
city, read off the handler's control flow: `fetch_open_meteo` is invoked
exactly once when the lookup succeeds and never when it fails. -/
def by_city_upstream_calls (city : String) : Nat :=
  match lookup_city city with
  | none => 0
  | some _ => 1

/-- The outbound HTTP request built by `fetch_open_meteo`: method, URL,
the query parameters (coordinates passed through, the three comma-joined
variable lists, `timezone`), and the request timeout in seconds. -/
structure UpstreamRequest where
  method : String
  url : String
  latitude : Rat
  longitude : Rat
  current : String
  hourly : String
  daily : String
  timezone : String
  timeout : Nat
deriving DecidableEq, Repr

/-- The request `fetch_open_meteo(lat, lon)` issues, field by field from
the source: `requests.get(base, params=params, timeout=15)` with the three
`",".join([...])` parameter lists. -/
def fetch_open_meteo_request (lat lon : Rat) : UpstreamRequest :=
  { method := "GET"
  , url := "https://api.open-meteo.com/v1/forecast"
  , latitude := lat
  , longitude := lon
  , current := String.intercalate ","
      [ "temperature_2m", "apparent_temperature", "relative_humidity_2m"
      , "precipitation", "wind_speed_10m", "wind_direction_10m"
      , "weather_code" ]
  , hourly := String.intercalate ","
      [ "temperature_2m", "precipitation_probability", "relative_humidity_2m"
      , "cloud_cover", "wind_speed_10m", "weather_code" ]
  , daily := String.intercalate ","
      [ "weather_code", "temperature_2m_max", "temperature_2m_min"
      , "precipitation_sum", "precipitation_probability_max", "sunrise"
      , "sunset", "wind_speed_10m_max" ]
  , timezone := "auto"
  , timeout := 15 }

/-- The status object returned by `GET /test`. -/
structure TestStatus where
  backend : String
  database : String
  note : String
deriving DecidableEq, Repr

/-- Python truthiness of an `os.getenv` result: `None` and the empty
string are falsy, any other string is truthy. -/
def envTruthy : Option String → Bool
  | none => false
  | some s => !s.isEmpty

/-- Handler for `GET /test`: build the fixed response dict, then inside
`try` import the optional database module and check both environment
variables, upgrading only the `database` field on success; any exception
is absorbed by `except Exception: pass` and the dict is returned as-is.
`importDb` models the import (`.error` = the import raised). -/
def test_database (importDb : Except String Unit)
    (dbUrl dbName : Option String) : TestStatus :=
  let response : TestStatus :=
    { backend := "✅ Running"
    , database := "❌ Not Used"
    , note := "This app fetches live weather data; no DB required." }
  match importDb with
  | .error _ => response
  | .ok _ =>
    if envTruthy dbUrl && envTruthy dbName then
      { response with database := "✅ Available (not required for this app)" }
    else
      response

/-- Spec-side combinator for the city endpoint, following the spec's words:
"delegates to the same upstream call as get weather by coordinates, wrapping
the result with the matched location record on success or the same error
envelope on failure". -/
def withLocation {α : Type} (loc : Location) : Envelope α → Envelope α
  | .ok _ data => .ok (some loc) data
  | .err e hint => .err e hint

theorem pyLower_fix (c : Char) (h : ¬(65 ≤ c.toNat ∧ c.toNat ≤ 90))
    (hE : c ≠ 'É') (hO : c ≠ 'Ó') : pyLower c = c := by
  simp [pyLower, h, hE, hO]

theorem pyLower_idem (c : Char) : pyLower (pyLower c) = pyLower c := by
  by_cases h : 65 ≤ c.toNat ∧ c.toNat ≤ 90
  · have hc : pyLower c = Char.ofNat (c.toNat + 32) := by
      simp [pyLower, h]
    rw [hc]
    obtain ⟨h1, h2⟩ := h
    generalize c.toNat = n at h1 h2
    interval_cases n <;> decide
  · by_cases hE : c = 'É'
    · subst hE; decide
    · by_cases hO : c = 'Ó'
      · subst hO; decide
      · have hc : pyLower c = c := pyLower_fix c h hE hO
        rw [hc, hc]

theorem slug_char_idem (c : Char) :
    dashSpace (pyLower (dashSpace (pyLower c))) = dashSpace (pyLower c) := by
  by_cases hsp : pyLower c = ' '
  · rw [hsp]; decide
  · have h1 : dashSpace (pyLower c) = pyLower c := by simp [dashSpace, hsp]
    rw [h1, pyLower_idem, h1]

theorem slugify_data_idem (l : List Char) :
    ((((l.map pyLower).map dashSpace).map pyLower).map dashSpace) =
      (l.map pyLower).map dashSpace := by
  induction l with
  | nil => rfl
  | cons c t ih => simp only [List.map_cons]; rw [slug_char_idem c, ih]

/-- C1: for every lat/lon, if the upstream fetch returns a JSON body without
raising, `get_weather` returns `{ok: true, data: <that body>}` with the body
passed through unchanged; if the fetch raises, it returns
`{ok: false, error: <the exception message>}` as a normal response. -/
theorem get_weather_envelope {α : Type} (upstream : Rat → Rat → Except String α)
    (lat lon : Rat) :
    (∀ data, upstream lat lon = Except.ok data →
      get_weather upstream lat lon = Envelope.ok none data) ∧
    (∀ msg, upstream lat lon = Except.error msg →
      get_weather upstream lat lon = Envelope.err msg none) := by
  constructor <;> intro x h <;> simp [get_weather, h]

theorem get_weather_envelope_witness :
    get_weather (fun _ _ => Except.ok 7) 1 2 = Envelope.ok none 7 ∧
    get_weather (α := Nat) (fun _ _ => Except.error "boom") 1 2 =
      Envelope.err "boom" none :=
  ⟨(get_weather_envelope (fun _ _ => Except.ok 7) 1 2).1 7 rfl,
   (get_weather_envelope (fun _ _ => Except.error "boom") 1 2).2 "boom" rfl⟩

/-- C2: for every city whose derived slug matches no table entry,
`get_weather_by_city` returns exactly
`{ok: false, error: "City not found", hint: "Use /api/locations to see options"}`
— for every possible upstream, hence independently of it — and issues zero
upstream calls. -/
theorem by_city_not_found {α : Type} (upstream : Rat → Rat → Except String α)
    (city : String) (h : lookup_city city = none) :
    get_weather_by_city upstream city =
      Envelope.err "City not found" (some "Use /api/locations to see options") ∧
    by_city_upstream_calls city = 0 := by
  simp [get_weather_by_city, by_city_upstream_calls, h]

theorem by_city_not_found_witness :
    get_weather_by_city (α := Nat) (fun _ _ => Except.ok 0) "atlantis" =
      Envelope.err "City not found" (some "Use /api/locations to see options") ∧
    by_city_upstream_calls "atlantis" = 0 :=
  by_city_not_found (fun _ _ => Except.ok 0) "atlantis" rfl

/-- C3: for every city whose derived slug matches a table entry `loc`,
`get_weather_by_city` equals `get_weather` invoked at `loc`'s coordinates,
with `loc` added on success and the same error envelope on failure
(the `withLocation` wrapping, stated for every upstream). -/
theorem by_city_refines_coordinates {α : Type}
    (upstream : Rat → Rat → Except String α) (city : String) (loc : Location)
    (h : lookup_city city = some loc) :
    get_weather_by_city upstream city =
      withLocation loc (get_weather upstream loc.lat loc.lon) := by
  unfold get_weather_by_city get_weather withLocation
  rw [h]
  cases hu : upstream loc.lat loc.lon <;> simp [hu]

theorem by_city_refines_coordinates_witness :
    get_weather_by_city (fun _ _ => Except.ok 3) "cartago" =
      withLocation ⟨"Cartago", "Cartago", 9.8644, -83.9194, "cartago"⟩
        (get_weather (fun _ _ => Except.ok 3) (9.8644 : Rat) (-83.9194 : Rat)) :=
  by_city_refines_coordinates (fun _ _ => Except.ok 3) "cartago"
    ⟨"Cartago", "Cartago", 9.8644, -83.9194, "cartago"⟩ rfl

/-- C4: `get_locations` always succeeds with the static table itself (hence
identical across calls of the pure handler), which has exactly 9 records
with pairwise distinct slugs, in fixed insertion order. -/
theorem locations_spec :
    get_locations = CR_LOCATIONS ∧ get_locations.length = 9 ∧
    (get_locations.map Location.slug).Nodup :=
  ⟨rfl, rfl, by decide⟩

/-- C5: every upstream fetch is a GET to the provider's `/v1/forecast`
endpoint carrying exactly: the pass-through latitude and longitude, the
comma-joined 7-item `current` list, 6-item `hourly` list and 8-item `daily`
list, `timezone=auto`, and a 15-second timeout. -/
theorem fetch_request_spec (lat lon : Rat) :
    fetch_open_meteo_request lat lon =
      { method := "GET"
      , url := "https://api.open-meteo.com/v1/forecast"
      , latitude := lat
      , longitude := lon
      , current := "temperature_2m,apparent_temperature,relative_humidity_2m,precipitation,wind_speed_10m,wind_direction_10m,weather_code"
      , hourly := "temperature_2m,precipitation_probability,relative_humidity_2m,cloud_cover,wind_speed_10m,weather_code"
      , daily := "weather_code,temperature_2m_max,temperature_2m_min,precipitation_sum,precipitation_probability_max,sunrise,sunset,wind_speed_10m_max"
      , timezone := "auto"
      , timeout := 15 } := rfl

/-- C6 counterexample: with city = "San José" the handler does NOT resolve
the san-jose record — the derived slug keeps the accent, matches nothing,
and the not-found envelope is returned (shown at a concrete upstream). -/
theorem san_jose_name_not_found :
    get_weather_by_city (α := Nat) (fun _ _ => Except.ok 0) "San José" =
      Envelope.err "City not found" (some "Use /api/locations to see options") := by
  decide

/-- C6 amended: city = "san-jose" resolves to the table entry
`{name: "San José", slug: "san-jose", ...}`, but city = "San José" derives
the slug "san-josé" (accent retained) and resolves to no entry. -/
theorem san_jose_slug_resolves :
    lookup_city "san-jose" =
      some ⟨"San José", "San José", 9.9281, -84.0907, "san-jose"⟩ ∧
    slugify "San José" = "san-josé" ∧
    lookup_city "San José" = none :=
  ⟨rfl, rfl, by decide⟩

/-- C7: the slug derivation (lowercase, then spaces to hyphens) is
idempotent: `slugify (slugify x) = slugify x` for every string `x`. -/
theorem slugify_idempotent (s : String) : slugify (slugify s) = slugify s :=
  congrArg String.mk (slugify_data_idem s.data)

/-- C8: the diagnostic handler always returns the fixed `backend` and `note`
strings; a failing database probe is silently absorbed (the response is the
unmodified base object), and the only effect of a successful probe is the
informational `database` string, which is always one of its two values. -/
theorem test_database_spec (importDb : Except String Unit)
    (dbUrl dbName : Option String) (e : String) :
    (test_database importDb dbUrl dbName).backend = "✅ Running" ∧
    (test_database importDb dbUrl dbName).note =
      "This app fetches live weather data; no DB required." ∧
    ((test_database importDb dbUrl dbName).database = "❌ Not Used" ∨
     (test_database importDb dbUrl dbName).database =
       "✅ Available (not required for this app)") ∧
    test_database (Except.error e) dbUrl dbName =
      ⟨"✅ Running", "❌ Not Used",
        "This app fetches live weather data; no DB required."⟩ := by
  unfold test_database
  cases importDb with
  | error e => simp
  | ok u =>
    by_cases h : envTruthy dbUrl && envTruthy dbName <;> simp [h]

/-- C9: the slug derivation applied to some table names does not return the
record's slug: "San José" derives "san-josé" while its slug is "san-jose",
and "Liberia (Guanacaste)" derives "liberia-(guanacaste)" while its slug is
"liberia"; both pairs are in the table, and looking either display name up
as the city input finds nothing. -/
theorem name_slug_mismatch :
    slugify "San José" = "san-josé" ∧
    ("san-josé" : String) ≠ "san-jose" ∧
    slugify "Liberia (Guanacaste)" = "liberia-(guanacaste)" ∧
    ("liberia-(guanacaste)" : String) ≠ "liberia" ∧
    ("San José", "san-jose") ∈
      CR_LOCATIONS.map (fun l => (l.name, l.slug)) ∧
    ("Liberia (Guanacaste)", "liberia") ∈
      CR_LOCATIONS.map (fun l => (l.name, l.slug)) ∧
    lookup_city "San José" = none ∧
    lookup_city "Liberia (Guanacaste)" = none :=
  ⟨rfl, by decide, rfl, by decide, by decide, by decide, by decide, by decide⟩

/-- C10: when the city lookup succeeds but the upstream fetch raises, the
returned envelope is exactly `{ok: false, error: <message>}` — no location
field and no hint field; the matched record appears only on success. -/
theorem by_city_error_no_location {α : Type}
    (upstream : Rat → Rat → Except String α) (city : String) (loc : Location)
    (msg : String) (hloc : lookup_city city = some loc)
    (herr : upstream loc.lat loc.lon = Except.error msg) :
    get_weather_by_city upstream city = Envelope.err msg none := by
  simp [get_weather_by_city, hloc, herr]

theorem by_city_error_no_location_witness :
    get_weather_by_city (α := Nat) (fun _ _ => Except.error "boom") "quepos" =
      Envelope.err "boom" none :=
  by_city_error_no_location (fun _ _ => Except.error "boom") "quepos"
    ⟨"Quepos", "Puntarenas", 9.4319, -84.1616, "quepos"⟩ "boom" rfl rfl

end CRClimate

